import Mathlib

/-!
Verification of the geospatial proximity and route-membership subsystem of
the manBus backend.

The Python application layer (services, repositories, request schemas) is
embedded directly from the source files under src/backend/app.  The
geometric logic itself lives in PostgreSQL stored functions (fn_find_nearest_bus,
fn_find_nearest_stops, fn_is_point_on_route, fn_reorder_route_stops, ...)
whose SQL source is not part of the repository snapshot; those are modelled
from the specification text, and each such definition carries a doc comment
saying so.  Python floats are idealized as rationals, Python ints as Lean
integers; exceptions are modelled with Except over an error type carrying
the error kind of the specification taxonomy together with the message.
-/

namespace ManBus

/-- Error kinds of the specification taxonomy (section 7): InvalidArgument,
InvalidRoute, NotFound, ValidationError. -/
inductive ErrKind where
  | invalidArgument
  | invalidRoute
  | notFound
  | validationError
deriving DecidableEq, Repr

/-- An error value: a taxonomy kind together with the raised message, the way
a Python exception carries its text. -/
structure Err where
  kind : ErrKind
  msg : String
deriving DecidableEq, Repr

/-- True exactly on successful results. -/
def resultOk {α : Type} : Except Err α → Bool
  | .ok _ => true
  | .error _ => false

/-- The kind of the error carried by a failed result, none on success. -/
def errKindOf {α : Type} : Except Err α → Option ErrKind
  | .ok _ => none
  | .error e => some e.kind

/-- Geographic coordinate.  The source stores latitude and longitude as
floats; they are idealized here as rationals. -/
structure Coord where
  lat : ℚ
  lon : ℚ
deriving DecidableEq, Repr

/-- A bus row: identifier, status string, optionally assigned route, and
current location, as in the Buses table used by BusRepository. -/
structure Bus where
  id : Nat
  status : String
  routeId : Option Nat
  loc : Coord
deriving DecidableEq, Repr

/-- A route row: identifier and its polyline geometry. -/
structure Route where
  id : Nat
  path : List Coord
deriving DecidableEq, Repr

/-- A stop row: identifier and fixed location. -/
structure BusStop where
  id : Nat
  loc : Coord
deriving DecidableEq, Repr

/-- The database snapshot the stored functions operate on: buses, routes,
stops, and the route-stop association rows (route id, stop id, sequence). -/
structure GeoState where
  buses : List Bus
  routes : List Route
  stops : List BusStop
  assocs : List (Nat × Nat × Nat)
deriving DecidableEq, Repr

/-- Look a bus up by id, as SELECT by primary key. -/
def GeoState.findBus (st : GeoState) (bid : Nat) : Option Bus :=
  st.buses.find? (fun b => b.id == bid)

/-- Look a route up by id, as SELECT by primary key. -/
def GeoState.findRoute (st : GeoState) (rid : Nat) : Option Route :=
  st.routes.find? (fun r => r.id == rid)

/-- Ranking relation on proximity results (candidate id, distance):
ascending by distance, ties broken by candidate identifier ascending. -/
def proxLe (a b : Nat × ℚ) : Prop :=
  a.2 < b.2 ∨ (a.2 = b.2 ∧ a.1 ≤ b.1)

instance proxLe.decRel : DecidableRel proxLe := fun a b =>
  inferInstanceAs (Decidable (a.2 < b.2 ∨ (a.2 = b.2 ∧ a.1 ≤ b.1)))

instance proxLe.total : IsTotal (Nat × ℚ) proxLe where
  total a b := by
    rcases lt_trichotomy a.2 b.2 with h | h | h
    · exact Or.inl (Or.inl h)
    · rcases Nat.le_total a.1 b.1 with hn | hn
      · exact Or.inl (Or.inr ⟨h, hn⟩)
      · exact Or.inr (Or.inr ⟨h.symm, hn⟩)
    · exact Or.inr (Or.inl h)

instance proxLe.trans : IsTrans (Nat × ℚ) proxLe where
  trans a b c hab hbc := by
    rcases hab with h1 | ⟨he1, hn1⟩
    · rcases hbc with h2 | ⟨he2, hn2⟩
      · exact Or.inl (h1.trans h2)
      · exact Or.inl (he2 ▸ h1)
    · rcases hbc with h2 | ⟨he2, hn2⟩
      · exact Or.inl (he1 ▸ h2)
      · exact Or.inr ⟨he1.trans he2, hn1.trans hn2⟩

/-- Modelled from the spec: the FindNearest spatial lookup of section 4.2.
It is implemented in the source by the PostgreSQL functions
fn_find_nearest_bus and fn_find_nearest_stops, whose SQL text is missing
from the repository snapshot.  Per the spec it scores every candidate by
distance from the origin, filters out candidates beyond the radius when a
radius is given (none meaning unbounded, as in the nearest-buses use case),
sorts ascending by distance with ties broken by candidate identifier
ascending, truncates to the limit, and fails with InvalidArgument when the
limit is not positive.  The distance function is a parameter. -/
def findNearest (dist : Coord → Coord → ℚ) (origin : Coord)
    (cands : List (Nat × Coord)) (radius : Option ℚ) (limit : Int) :
    Except Err (List (Nat × ℚ)) :=
  if limit ≤ 0 then
    .error ⟨.invalidArgument, "limit must be positive"⟩
  else
    let scored := cands.map (fun c => (c.1, dist origin c.2))
    let kept :=
      match radius with
      | none => scored
      | some r => scored.filter (fun s => decide (s.2 ≤ r))
    .ok ((kept.insertionSort proxLe).take limit.toNat)

/-- Modelled from the spec: the per-segment sum underlying ComputeLength of
section 4.3 (the SQL body of fn_get_route_length is missing from the
snapshot).  Walks the path accumulating the distance between consecutive
coordinates. -/
def pathLengthFrom (dist : Coord → Coord → ℚ) : Coord → List Coord → ℚ
  | _, [] => 0
  | a, b :: rest => dist a b + pathLengthFrom dist b rest

/-- Modelled from the spec: ComputeLength of section 4.3, implemented in the
source by the missing PostgreSQL function fn_get_route_length.  Sums the
distance over consecutive coordinate pairs and fails with InvalidRoute when
the path has fewer than 2 points. -/
def computeLength (dist : Coord → Coord → ℚ) : List Coord → Except Err ℚ
  | [] => .error ⟨.invalidRoute, "path must have at least 2 points"⟩
  | [_] => .error ⟨.invalidRoute, "path must have at least 2 points"⟩
  | a :: b :: rest => .ok (pathLengthFrom dist a (b :: rest))

/-- The consecutive segments of a polyline, paired start and end. -/
def segmentsOf (path : List Coord) : List (Coord × Coord) :=
  path.zip path.tail

/-- Modelled from the spec: IsPointOnRoute of section 4.3 (missing SQL body
of fn_is_point_on_route).  Computes the minimum projection distance of the
point over all consecutive segments and compares it with the tolerance;
fails with InvalidRoute when the path has fewer than 2 points, so no
segment exists.  The point-to-segment projection distance is a parameter. -/
def isPointOnRoute (proj : Coord → Coord → Coord → ℚ)
    (path : List Coord) (p : Coord) (tol : ℚ) : Except Err Bool :=
  match (segmentsOf path).map (fun s => proj p s.1 s.2) with
  | [] => .error ⟨.invalidRoute, "path must have at least 2 points"⟩
  | d :: ds => .ok (decide (ds.foldl min d ≤ tol))

/-- Modelled from the spec: the minimum point-to-path distance used by
FindRoutesNearLocation in section 4.4, none when the path has no segment. -/
def routeMinDist (proj : Coord → Coord → Coord → ℚ)
    (p : Coord) (path : List Coord) : Option ℚ :=
  match (segmentsOf path).map (fun s => proj p s.1 s.2) with
  | [] => none
  | d :: ds => some (ds.foldl min d)

/-- True when a list of naturals contains a repeated value; the shape of the
uniqueness check the reorder operation performs on the target sequences. -/
def dupCheck : List Nat → Bool
  | [] => false
  | x :: xs => decide (x ∈ xs) || dupCheck xs

/-- Modelled from the spec: fn_find_nearest_stops (missing SQL body).
FindNearestStops of section 4.4 loads all stops and delegates to the
FindNearest lookup of section 4.2 with the given radius and limit. -/
def fn_find_nearest_stops (dist : Coord → Coord → ℚ) (st : GeoState)
    (origin : Coord) (radius : Int) (limit : Int) :
    Except Err (List (Nat × ℚ)) :=
  findNearest dist origin (st.stops.map (fun s => (s.id, s.loc)))
    (some (radius : ℚ)) limit

/-- Modelled from the spec: fn_find_nearest_bus (missing SQL body).
FindNearestBuses of section 4.4 loads the buses, optionally filtered to the
given route, and delegates to the FindNearest lookup of section 4.2 with no
radius bound; as noted in the spec it does not filter by bus status. -/
def fn_find_nearest_bus (dist : Coord → Coord → ℚ) (st : GeoState)
    (origin : Coord) (routeFilter : Option Nat) (limit : Int) :
    Except Err (List (Nat × ℚ)) :=
  let cands :=
    match routeFilter with
    | none => st.buses
    | some rid => st.buses.filter (fun b => b.routeId == some rid)
  findNearest dist origin (cands.map (fun b => (b.id, b.loc))) none limit

/-- Modelled from the spec: fn_find_routes_near_location (missing SQL body).
FindRoutesNearLocation of section 4.4 computes for every route the minimum
point-to-segment distance across its path, keeps routes whose minimum
distance is within the radius, and returns them ranked by that distance. -/
def fn_find_routes_near_location (proj : Coord → Coord → Coord → ℚ)
    (st : GeoState) (origin : Coord) (radius : Int) :
    Except Err (List (Nat × ℚ)) :=
  let scored := st.routes.filterMap (fun r =>
    match routeMinDist proj origin r.path with
    | none => none
    | some d => if d ≤ (radius : ℚ) then some (r.id, d) else none)
  .ok (scored.insertionSort proxLe)

/-- Modelled from the spec: fn_get_route_length (missing SQL body) resolves
the route and applies ComputeLength to its path; a missing route is absent
data, NotFound in the taxonomy of section 7. -/
def fn_get_route_length (dist : Coord → Coord → ℚ) (st : GeoState)
    (rid : Nat) : Except Err ℚ :=
  match st.findRoute rid with
  | none => .error ⟨.notFound, "Route " ++ toString rid ++ " not found"⟩
  | some r => computeLength dist r.path

/-- Modelled from the spec: fn_is_point_on_route (missing SQL body) resolves
the route and applies IsPointOnRoute of section 4.3 to its path. -/
def fn_is_point_on_route (proj : Coord → Coord → Coord → ℚ) (st : GeoState)
    (rid : Nat) (p : Coord) (tol : Int) : Except Err Bool :=
  match st.findRoute rid with
  | none => .error ⟨.notFound, "Route " ++ toString rid ++ " not found"⟩
  | some r => isPointOnRoute proj r.path p (tol : ℚ)

/-- Modelled from the spec: fn_is_bus_on_route (missing SQL body).
IsBusOnRoute of section 4.4 resolves the assigned route and the current
coordinate of the bus and delegates to IsPointOnRoute; it fails with
NotFound when the bus or its route does not exist. -/
def fn_is_bus_on_route (proj : Coord → Coord → Coord → ℚ) (st : GeoState)
    (bid : Nat) (tol : Int) : Except Err Bool :=
  match st.findBus bid with
  | none => .error ⟨.notFound, "Bus " ++ toString bid ++ " not found"⟩
  | some b =>
    match b.routeId with
    | none => .error ⟨.notFound, "Route of bus " ++ toString bid ++ " not found"⟩
    | some rid =>
      match st.findRoute rid with
      | none => .error ⟨.notFound, "Route " ++ toString rid ++ " not found"⟩
      | some r => isPointOnRoute proj r.path b.loc (tol : ℚ)

/-- Modelled from the spec: fn_update_bus_location (missing SQL body) stores
the new coordinate of the bus and reports success as a boolean, false when
the row does not exist. -/
def fn_update_bus_location (st : GeoState) (bid : Nat) (c : Coord) :
    Except Err Bool × GeoState :=
  match st.findBus bid with
  | none => (.ok false, st)
  | some _ =>
    (.ok true,
      { st with buses := st.buses.map (fun b =>
          if b.id == bid then { b with loc := c } else b) })

/-- Modelled from the spec: the sequence replacement a reorder applies to a
single association row (route id, stop id, sequence): rows of other routes
are untouched, rows of this route whose stop is listed in the mapping get
the mapped sequence. -/
def applyReorder (rid : Nat) (mapping : List (Nat × Nat))
    (a : Nat × Nat × Nat) : Nat × Nat × Nat :=
  if a.1 == rid then
    match mapping.lookup a.2.1 with
    | some q => (a.1, a.2.1, q)
    | none => a
  else a

/-- Modelled from the spec: the sequence values the rows of the route would
carry after the reorder, the list whose uniqueness the operation checks. -/
def reorderedSeqs (st : GeoState) (rid : Nat)
    (mapping : List (Nat × Nat)) : List Nat :=
  ((st.assocs.map (applyReorder rid mapping)).filter
    (fun a => a.1 == rid)).map (fun a => a.2.2)

/-- Modelled from the spec: fn_reorder_route_stops (missing SQL body).
ReorderStops of section 4.3 atomically replaces the sequence values of the
listed stop associations of the route; when the resulting sequence values
are not unique within the route it fails with ValidationError and the whole
reorder is rejected, leaving the stored rows untouched. -/
def fn_reorder_route_stops (st : GeoState) (rid : Nat)
    (mapping : List (Nat × Nat)) : Except Err Bool × GeoState :=
  if dupCheck (reorderedSeqs st rid mapping) then
    (.error ⟨.validationError, "duplicate sequence numbers in route"⟩, st)
  else
    (.ok true, { st with assocs := st.assocs.map (applyReorder rid mapping) })

/-- The exception wrapping performed by BaseRepository above every query:
the caught error is re-raised with the context prefix, its kind chained. -/
def wrapErr (e : Err) : Err :=
  ⟨e.kind, "Query execution failed: " ++ e.msg⟩

/-- Embedding of BaseRepository query execution: a failure of the underlying
query is re-raised wrapped by wrapErr, a success is returned as is. -/
def execQuery {α : Type} : Except Err α → Except Err α
  | .error e => .error (wrapErr e)
  | .ok a => .ok a

/-- Query execution for state-changing stored functions: the error channel
is wrapped by execQuery, the resulting state passes through. -/
def execQueryM {α : Type} (p : Except Err α × GeoState) :
    Except Err α × GeoState :=
  (execQuery p.1, p.2)

namespace BusRepository

/-- Embedding of BusRepository.find_nearest_bus: runs fn_find_nearest_bus
through the query executor. -/
def find_nearest_bus (dist : Coord → Coord → ℚ) (st : GeoState)
    (origin : Coord) (routeFilter : Option Nat) (limit : Int) :
    Except Err (List (Nat × ℚ)) :=
  execQuery (fn_find_nearest_bus dist st origin routeFilter limit)

/-- Embedding of BusRepository.update_location: runs fn_update_bus_location
through the query executor. -/
def update_location (st : GeoState) (bid : Nat) (c : Coord) :
    Except Err Bool × GeoState :=
  execQueryM (fn_update_bus_location st bid c)

/-- Embedding of BusRepository.is_bus_on_route: runs fn_is_bus_on_route
through the query executor. -/
def is_bus_on_route (proj : Coord → Coord → Coord → ℚ) (st : GeoState)
    (bid : Nat) (tol : Int) : Except Err Bool :=
  execQuery (fn_is_bus_on_route proj st bid tol)

/-- Embedding of BaseRepository.exists for buses. -/
def existsBus (st : GeoState) (bid : Nat) : Bool :=
  (st.findBus bid).isSome

end BusRepository

namespace RouteRepository

/-- Embedding of RouteRepository.find_nearest_stops: runs
fn_find_nearest_stops through the query executor. -/
def find_nearest_stops (dist : Coord → Coord → ℚ) (st : GeoState)
    (origin : Coord) (radius : Int) (limit : Int) :
    Except Err (List (Nat × ℚ)) :=
  execQuery (fn_find_nearest_stops dist st origin radius limit)

/-- Embedding of RouteRepository.find_routes_near_location: runs
fn_find_routes_near_location through the query executor. -/
def find_routes_near_location (proj : Coord → Coord → Coord → ℚ)
    (st : GeoState) (origin : Coord) (radius : Int) :
    Except Err (List (Nat × ℚ)) :=
  execQuery (fn_find_routes_near_location proj st origin radius)

/-- Embedding of RouteRepository.get_route_length: runs fn_get_route_length
through the query executor. -/
def get_route_length (dist : Coord → Coord → ℚ) (st : GeoState)
    (rid : Nat) : Except Err ℚ :=
  execQuery (fn_get_route_length dist st rid)

/-- Embedding of RouteRepository.is_point_on_route: runs
fn_is_point_on_route through the query executor. -/
def is_point_on_route (proj : Coord → Coord → Coord → ℚ) (st : GeoState)
    (rid : Nat) (p : Coord) (tol : Int) : Except Err Bool :=
  execQuery (fn_is_point_on_route proj st rid p tol)

/-- Embedding of RouteRepository.reorder_route_stops: runs
fn_reorder_route_stops through the query executor. -/
def reorder_route_stops (st : GeoState) (rid : Nat)
    (mapping : List (Nat × Nat)) : Except Err Bool × GeoState :=
  execQueryM (fn_reorder_route_stops st rid mapping)

end RouteRepository

namespace RouteService

/-- Embedding of RouteService.find_routes_near_location: rejects a radius
below 1 meter or above 10000 meters, then delegates to the repository.
The optional radius defaults to 500. -/
def find_routes_near_location (proj : Coord → Coord → Coord → ℚ)
    (st : GeoState) (origin : Coord) (radius? : Option Int) :
    Except Err (List (Nat × ℚ)) :=
  let radius := radius?.getD 500
  if radius < 1 then
    .error ⟨.invalidArgument, "Radius must be at least 1 meter"⟩
  else if radius > 10000 then
    .error ⟨.invalidArgument, "Radius cannot exceed 10000 meters"⟩
  else
    RouteRepository.find_routes_near_location proj st origin radius

/-- Embedding of RouteService.find_nearest_stops: rejects a radius below 1
meter and a limit below 1, then delegates to the repository.  The optional
radius defaults to 1000 and the optional limit to 10. -/
def find_nearest_stops (dist : Coord → Coord → ℚ) (st : GeoState)
    (origin : Coord) (radius? : Option Int) (limit? : Option Int) :
    Except Err (List (Nat × ℚ)) :=
  let radius := radius?.getD 1000
  let limit := limit?.getD 10
  if radius < 1 then
    .error ⟨.invalidArgument, "Radius must be at least 1 meter"⟩
  else if limit < 1 then
    .error ⟨.invalidArgument, "Limit must be at least 1"⟩
  else
    RouteRepository.find_nearest_stops dist st origin radius limit

/-- Embedding of RouteService.get_route_length: checks the route exists,
then delegates to the repository. -/
def get_route_length (dist : Coord → Coord → ℚ) (st : GeoState)
    (rid : Nat) : Except Err ℚ :=
  match st.findRoute rid with
  | none => .error ⟨.notFound, "Route " ++ toString rid ++ " not found"⟩
  | some _ => RouteRepository.get_route_length dist st rid

/-- Embedding of RouteService.is_point_on_route: checks the route exists,
then delegates to the repository.  The optional tolerance defaults to 100
meters. -/
def is_point_on_route (proj : Coord → Coord → Coord → ℚ) (st : GeoState)
    (rid : Nat) (p : Coord) (tol? : Option Int) : Except Err Bool :=
  let tol := tol?.getD 100
  match st.findRoute rid with
  | none => .error ⟨.notFound, "Route " ++ toString rid ++ " not found"⟩
  | some _ => RouteRepository.is_point_on_route proj st rid p tol

/-- Embedding of RouteService.reorder_route_stops: checks the route exists,
delegates to the repository, and raises when the repository reports
failure. -/
def reorder_route_stops (st : GeoState) (rid : Nat)
    (mapping : List (Nat × Nat)) : Except Err Bool × GeoState :=
  match st.findRoute rid with
  | none => (.error ⟨.notFound, "Route " ++ toString rid ++ " not found"⟩, st)
  | some _ =>
    let r := RouteRepository.reorder_route_stops st rid mapping
    match r.1 with
    | .error e => (.error e, r.2)
    | .ok true => (.ok true, r.2)
    | .ok false =>
      (.error ⟨.validationError,
        "Failed to reorder stops for route " ++ toString rid⟩, r.2)

end RouteService

namespace BusService

/-- Embedding of BusService.find_nearest_buses: delegates directly to the
repository with no validation of its own.  The optional limit defaults
to 5. -/
def find_nearest_buses (dist : Coord → Coord → ℚ) (st : GeoState)
    (origin : Coord) (routeFilter : Option Nat) (limit? : Option Int) :
    Except Err (List (Nat × ℚ)) :=
  BusRepository.find_nearest_bus dist st origin routeFilter (limit?.getD 5)

/-- Embedding of BusService.update_location: the bus must exist and be
Active, otherwise the call raises and nothing is written; only then is the
repository update executed. -/
def update_location (st : GeoState) (bid : Nat) (c : Coord) :
    Except Err Bool × GeoState :=
  match st.findBus bid with
  | none => (.error ⟨.notFound, "Bus " ++ toString bid ++ " not found"⟩, st)
  | some b =>
    if b.status ≠ "Active" then
      (.error ⟨.invalidArgument,
        "Cannot update location for inactive bus " ++ toString bid⟩, st)
    else
      BusRepository.update_location st bid c

/-- Embedding of BusService.is_bus_on_route: checks the bus exists, then
delegates to the repository.  The optional tolerance defaults to 100
meters. -/
def is_bus_on_route (proj : Coord → Coord → Coord → ℚ) (st : GeoState)
    (bid : Nat) (tol? : Option Int) : Except Err Bool :=
  let tol := tol?.getD 100
  if BusRepository.existsBus st bid then
    BusRepository.is_bus_on_route proj st bid tol
  else
    .error ⟨.notFound, "Bus " ++ toString bid ++ " not found"⟩

end BusService

namespace PointSchema

/-- Embedding of PointSchema of base_schema.py: the longitude field carries
the bounds ge -180 and le 180, the latitude field ge -90 and le 90; a value
outside its bounds is rejected by the schema with a validation failure. -/
def validate (lon lat : ℚ) : Except Err Coord :=
  if -180 ≤ lon ∧ lon ≤ 180 then
    if -90 ≤ lat ∧ lat ≤ 90 then
      .ok ⟨lat, lon⟩
    else
      .error ⟨.invalidArgument, "latitude out of range"⟩
  else
    .error ⟨.invalidArgument, "longitude out of range"⟩

end PointSchema

namespace LineStringSchema

/-- Embedding of LineStringSchema of base_schema.py: a list of PointSchema
values with the constraint min_length 2; every element is validated as a
point and the list must have at least 2 entries. -/
def validate (cs : List (ℚ × ℚ)) : Except Err (List Coord) :=
  match cs.mapM (fun c => PointSchema.validate c.1 c.2) with
  | .error e => .error e
  | .ok ps =>
    if ps.length < 2 then
      .error ⟨.invalidArgument, "coordinates must have at least 2 points"⟩
    else
      .ok ps

end LineStringSchema

/-- Claim-side predicate: the pair (longitude, latitude) lies inside the
documented bounds. -/
def coordInBounds (c : ℚ × ℚ) : Bool :=
  decide (-180 ≤ c.1) && decide (c.1 ≤ 180) &&
    decide (-90 ≤ c.2) && decide (c.2 ≤ 90)

/-- Claim-side form of ComputeLength: the sum of the distances over the
consecutive coordinate pairs of the path. -/
def consecutivePairSum (dist : Coord → Coord → ℚ) (path : List Coord) : ℚ :=
  ((segmentsOf path).map (fun s => dist s.1 s.2)).sum

/-- Claim-side predicate: the referenced bus exists in the snapshot. -/
def busExists (st : GeoState) (bid : Nat) : Bool :=
  (st.findBus bid).isSome

/-- Claim-side predicate: the referenced bus exists and its assigned route
exists in the snapshot. -/
def assignedRouteExists (st : GeoState) (bid : Nat) : Bool :=
  match st.findBus bid with
  | none => false
  | some b =>
    match b.routeId with
    | none => false
    | some rid => (st.findRoute rid).isSome

/-- Claim-side predicate: the referenced bus exists and its status is
Active. -/
def busExistsActive (st : GeoState) (bid : Nat) : Bool :=
  match st.findBus bid with
  | none => false
  | some b => b.status == "Active"

/-- Claim-side predicate: every returned distance is within the radius. -/
def withinRadius (r : ℚ) (l : List (Nat × ℚ)) : Bool :=
  l.all (fun x => decide (x.2 ≤ r))

/-- Sample distance function used to instantiate the abstract metric in
concrete evaluations: it reads the distance off the longitude of the
second coordinate, so the fixture encodes each intended distance there.
Any function of the right type fits the quantified theorems. -/
def sampleDist (_a b : Coord) : ℚ :=
  b.lon

/-- Sample point-to-segment distance used to instantiate the abstract
projection in concrete evaluations: it reads the longitude of the segment
end. -/
def sampleProj (_p _a b : Coord) : ℚ :=
  b.lon

/-- Sample query origin for concrete evaluations. -/
def originFix : Coord := ⟨0, 0⟩

/-- Sample coordinate for concrete evaluations. -/
def coordA : Coord := ⟨5, 5⟩

/-- Sample coordinate for concrete evaluations. -/
def coordB : Coord := ⟨0, 2⟩

/-- Sample database snapshot for concrete evaluations: two buses (one
Active on route 1, one Inactive with no route), route 1 with a two-point
path, route 9 with a degenerate one-point path, three stops, and the stop
associations of route 1. -/
def stFix : GeoState where
  buses := [⟨1, "Active", some 1, ⟨0, 0⟩⟩, ⟨2, "Inactive", none, ⟨0, 3⟩⟩]
  routes := [⟨1, [⟨0, 0⟩, ⟨0, 2⟩]⟩, ⟨9, [⟨5, 5⟩]⟩]
  stops := [⟨1, ⟨0, 1⟩⟩, ⟨2, ⟨0, 5⟩⟩, ⟨3, ⟨0, 2⟩⟩]
  assocs := [(1, 1, 0), (1, 2, 1)]

/-- The query executor succeeds exactly when the underlying query does, with
the same value. -/
theorem execQuery_ok_iff {α : Type} (x : Except Err α) (a : α) :
    execQuery x = .ok a ↔ x = .ok a := by
  cases x <;> simp [execQuery]

/-- The query executor turns an underlying failure into the wrapped
failure. -/
theorem execQuery_error {α : Type} (x : Except Err α) (e : Err)
    (h : x = .error e) : execQuery x = .error (wrapErr e) := by
  subst h; rfl

/-- Wrapping keeps the kind of the error. -/
theorem wrapErr_kind (e : Err) : (wrapErr e).kind = e.kind := rfl

/-- The kind observed through the query executor is the kind of the
underlying result. -/
theorem errKindOf_execQuery {α : Type} (x : Except Err α) :
    errKindOf (execQuery x) = errKindOf x := by
  cases x <;> rfl

/-- The duplicate check is false exactly on duplicate-free lists. -/
theorem dupCheck_eq_false_iff (l : List Nat) :
    dupCheck l = false ↔ l.Nodup := by
  induction l with
  | nil => simp [dupCheck]
  | cons x xs ih =>
    simp [dupCheck, List.nodup_cons, ih, Bool.or_eq_false_iff,
      decide_eq_false_iff_not, and_comm]

/-- A list with a repeated value fails the duplicate check. -/
theorem dupCheck_of_not_nodup {l : List Nat} (h : ¬ l.Nodup) :
    dupCheck l = true := by
  rcases hb : dupCheck l with _ | _
  · exact absurd ((dupCheck_eq_false_iff l).mp hb) h
  · rfl

/-- The accumulating path walk computes the consecutive-pair sum. -/
theorem pathLengthFrom_eq_pairSum (dist : Coord → Coord → ℚ) :
    ∀ (a : Coord) (l : List Coord),
      pathLengthFrom dist a l = consecutivePairSum dist (a :: l)
  | _, [] => by simp [pathLengthFrom, consecutivePairSum, segmentsOf]
  | a, b :: rest => by
    have ih := pathLengthFrom_eq_pairSum dist b rest
    simp only [pathLengthFrom, consecutivePairSum, segmentsOf] at ih ⊢
    simp [List.zip, ih]

/-- Every successful FindNearest result is sorted by the ranking relation,
and when a radius was given every returned distance is within it. -/
theorem findNearest_ok_sorted {dist : Coord → Coord → ℚ} {origin : Coord}
    {cands : List (Nat × Coord)} {radius : Option ℚ} {limit : Int}
    {res : List (Nat × ℚ)}
    (h : findNearest dist origin cands radius limit = .ok res) :
    res.Sorted proxLe ∧ ∀ r, radius = some r → ∀ x ∈ res, x.2 ≤ r := by
  unfold findNearest at h
  by_cases hl : limit ≤ 0
  · rw [if_pos hl] at h
    exact absurd h (by simp)
  · rw [if_neg hl] at h
    simp only [Except.ok.injEq] at h
    subst h
    constructor
    · exact List.Pairwise.sublist (List.take_sublist _ _)
        (List.sorted_insertionSort proxLe _)
    · intro r hr x hx
      subst hr
      have hx1 : x ∈ (List.insertionSort proxLe
          (((cands.map (fun c => (c.1, dist origin c.2))).filter
            (fun s => decide (s.2 ≤ r)))) ) :=
        List.take_subset _ _ hx
      rw [List.mem_insertionSort] at hx1
      have := List.of_mem_filter hx1
      exact of_decide_eq_true this

/-- A FindNearest call with a positive limit succeeds. -/
theorem findNearest_pos_limit_ok (dist : Coord → Coord → ℚ) (origin : Coord)
    (cands : List (Nat × Coord)) (radius : Option ℚ) (limit : Int)
    (hl : ¬ limit ≤ 0) :
    resultOk (findNearest dist origin cands radius limit) = true := by
  unfold findNearest
  rw [if_neg hl]
  rfl

/-- A FindNearest call with a non-positive limit fails with
InvalidArgument. -/
theorem findNearest_nonpos_limit (dist : Coord → Coord → ℚ)
    (origin : Coord) (cands : List (Nat × Coord)) (radius : Option ℚ)
    (limit : Int) (hl : limit ≤ 0) :
    findNearest dist origin cands radius limit =
      .error ⟨.invalidArgument, "limit must be positive"⟩ := by
  unfold findNearest
  rw [if_pos hl]

/-- A result is successful exactly when it is some ok value. -/
theorem resultOk_true_iff {α : Type} (x : Except Err α) :
    resultOk x = true ↔ ∃ a, x = .ok a := by
  cases x <;> simp [resultOk]

/-- A result is unsuccessful exactly when it is some error value. -/
theorem resultOk_false_iff {α : Type} (x : Except Err α) :
    resultOk x = false ↔ ∃ e, x = .error e := by
  cases x <;> simp [resultOk]

/-- ComputeLength fails with InvalidRoute on paths with fewer than 2 points
and otherwise returns the consecutive-pair sum. -/
theorem computeLength_spec (dist : Coord → Coord → ℚ) (path : List Coord) :
    (path.length < 2 →
      errKindOf (computeLength dist path) = some .invalidRoute) ∧
    (2 ≤ path.length →
      computeLength dist path = .ok (consecutivePairSum dist path)) := by
  constructor <;> intro h
  · rcases path with _ | ⟨a, _ | ⟨b, rest⟩⟩
    · rfl
    · rfl
    · simp only [List.length_cons] at h
      omega
  · rcases path with _ | ⟨a, _ | ⟨b, rest⟩⟩
    · simp at h
    · simp at h
    · simp only [computeLength, pathLengthFrom_eq_pairSum]

/-- Claim C7: the route-length operation on an existing route returns the
sum of the pairwise distances over the consecutive coordinates of the path
of the route, and fails with an InvalidRoute error for every path that has
fewer than 2 points. -/
theorem claim_C7_route_length (dist : Coord → Coord → ℚ) (st : GeoState)
    (rid : Nat) (r : Route) (hroute : st.findRoute rid = some r) :
    (r.path.length < 2 →
      errKindOf (RouteService.get_route_length dist st rid) =
        some .invalidRoute) ∧
    (2 ≤ r.path.length →
      RouteService.get_route_length dist st rid =
        .ok (consecutivePairSum dist r.path)) := by
  unfold RouteService.get_route_length RouteRepository.get_route_length
    fn_get_route_length
  rw [hroute]
  dsimp only
  constructor <;> intro h
  · rw [errKindOf_execQuery]
    exact (computeLength_spec dist r.path).1 h
  · rw [(computeLength_spec dist r.path).2 h]
    rfl

/-- Claim C7 witness: on the fixture, route 9 has a one-point path and the
length request fails with InvalidRoute, while route 1 has a two-point path
and its length is the consecutive-pair sum. -/
theorem claim_C7_route_length_witness :
    errKindOf (RouteService.get_route_length sampleDist stFix 9) =
      some .invalidRoute ∧
    RouteService.get_route_length sampleDist stFix 1 =
      .ok (consecutivePairSum sampleDist [⟨0, 0⟩, ⟨0, 2⟩]) :=
  ⟨(claim_C7_route_length sampleDist stFix 9 ⟨9, [⟨5, 5⟩]⟩ rfl).1 (by decide),
   (claim_C7_route_length sampleDist stFix 1 ⟨1, [⟨0, 0⟩, ⟨0, 2⟩]⟩ rfl).2
     (by decide)⟩

/-- Claim C8: with the optional parameters omitted, the nearest-stops query
uses a result limit of 10, the nearest-buses query a result limit of 5, and
the point-on-route and bus-on-route checks a tolerance of 100 meters. -/
theorem claim_C8_defaults (dist : Coord → Coord → ℚ)
    (proj : Coord → Coord → Coord → ℚ) (st : GeoState) (origin : Coord)
    (routeFilter : Option Nat) (radius? : Option Int) (rid bid : Nat)
    (p : Coord) :
    BusService.find_nearest_buses dist st origin routeFilter none =
      BusService.find_nearest_buses dist st origin routeFilter (some 5) ∧
    RouteService.find_nearest_stops dist st origin radius? none =
      RouteService.find_nearest_stops dist st origin radius? (some 10) ∧
    RouteService.is_point_on_route proj st rid p none =
      RouteService.is_point_on_route proj st rid p (some 100) ∧
    BusService.is_bus_on_route proj st bid none =
      BusService.is_bus_on_route proj st bid (some 100) :=
  ⟨rfl, rfl, rfl, rfl⟩

/-- Point validation succeeds exactly when the coordinate is inside the
documented bounds. -/
theorem PointSchema_validate_ok (lon lat : ℚ) :
    resultOk (PointSchema.validate lon lat) = coordInBounds (lon, lat) := by
  unfold PointSchema.validate coordInBounds
  split_ifs with h1 h2
  · simp [resultOk, h1.1, h1.2, h2.1, h2.2]
  · rcases not_and_or.mp h2 with h | h <;> simp [resultOk, h]
  · rcases not_and_or.mp h1 with h | h <;> simp [resultOk, h]

/-- When every coordinate is in bounds, validating the list succeeds and
keeps its length. -/
theorem mapM_validate_of_all (cs : List (ℚ × ℚ))
    (h : cs.all coordInBounds = true) :
    ∃ ps, cs.mapM (fun c => PointSchema.validate c.1 c.2) = .ok ps ∧
      ps.length = cs.length := by
  induction cs with
  | nil => exact ⟨[], rfl, rfl⟩
  | cons c cs ih =>
    simp only [List.all_cons, Bool.and_eq_true] at h
    obtain ⟨ps, hps, hlen⟩ := ih h.2
    have hc : resultOk (PointSchema.validate c.1 c.2) = true := by
      rw [PointSchema_validate_ok]; exact h.1
    obtain ⟨p, hp⟩ := (resultOk_true_iff _).mp hc
    refine ⟨p :: ps, ?_, by simp [hlen]⟩
    rw [List.mapM_cons, hp, hps]
    rfl

/-- When some coordinate is out of bounds, validating the list fails. -/
theorem mapM_validate_of_invalid (cs : List (ℚ × ℚ))
    (h : cs.all coordInBounds = false) :
    ∃ e, cs.mapM (fun c => PointSchema.validate c.1 c.2) = .error e := by
  induction cs with
  | nil => simp at h
  | cons c cs ih =>
    cases hc : coordInBounds c with
    | false =>
      have hv : resultOk (PointSchema.validate c.1 c.2) = false := by
        rw [PointSchema_validate_ok]; exact hc
      obtain ⟨e, he⟩ := (resultOk_false_iff _).mp hv
      exact ⟨e, by rw [List.mapM_cons, he]; rfl⟩
    | true =>
      have hrest : cs.all coordInBounds = false := by
        simpa [List.all_cons, hc] using h
      obtain ⟨e, he⟩ := ih hrest
      have hv : resultOk (PointSchema.validate c.1 c.2) = true := by
        rw [PointSchema_validate_ok]; exact hc
      obtain ⟨p, hp⟩ := (resultOk_true_iff _).mp hv
      exact ⟨e, by rw [List.mapM_cons, hp, he]; rfl⟩

/-- Claim C9: a coordinate is accepted by the point schema exactly when its
latitude lies in [-90, 90] and its longitude in [-180, 180], and a geometry
is accepted by the line-string schema exactly when all its coordinates are
in bounds and it has at least 2 of them; out-of-bounds or too-short inputs
are rejected at the schema boundary. -/
theorem claim_C9_schema_bounds (lon lat : ℚ) (cs : List (ℚ × ℚ)) :
    resultOk (PointSchema.validate lon lat) = coordInBounds (lon, lat) ∧
    resultOk (LineStringSchema.validate cs) =
      (cs.all coordInBounds && decide (2 ≤ cs.length)) := by
  refine ⟨PointSchema_validate_ok lon lat, ?_⟩
  unfold LineStringSchema.validate
  cases hall : cs.all coordInBounds with
  | false =>
    obtain ⟨e, he⟩ := mapM_validate_of_invalid cs hall
    rw [he]
    rfl
  | true =>
    obtain ⟨ps, hps, hlen⟩ := mapM_validate_of_all cs hall
    rw [hps]
    dsimp only
    by_cases h2 : ps.length < 2
    · rw [if_pos h2]
      have : ¬ 2 ≤ cs.length := by omega
      simp [resultOk, this]
    · rw [if_neg h2]
      have : 2 ≤ cs.length := by omega
      simp [resultOk, this]

/-- Claim C10: the bus location update raises and leaves the state untouched
whenever the bus does not exist or its status is not Active; only an Active
existing bus can have its stored coordinate changed by this operation. -/
theorem claim_C10_update_location_gate (st : GeoState) (bid : Nat)
    (c : Coord) :
    (busExistsActive st bid = false →
      resultOk (BusService.update_location st bid c).1 = false ∧
      (BusService.update_location st bid c).2 = st) ∧
    ((BusService.update_location st bid c).2 ≠ st →
      busExistsActive st bid = true) := by
  unfold BusService.update_location busExistsActive
  cases hfb : st.findBus bid with
  | none => exact ⟨fun _ => ⟨rfl, rfl⟩, fun h => absurd rfl h⟩
  | some b =>
    dsimp only
    by_cases hs : b.status ≠ "Active"
    · rw [if_pos hs]
      exact ⟨fun _ => ⟨rfl, rfl⟩, fun h => absurd rfl h⟩
    · rw [if_neg hs]
      have hsa : b.status = "Active" := not_ne_iff.mp hs
      constructor
      · intro hfalse
        rw [hsa] at hfalse
        simp at hfalse
      · intro _
        rw [hsa]
        simp

/-- The success flag observed through the query executor is that of the
underlying result. -/
theorem resultOk_execQuery {α : Type} (x : Except Err α) :
    resultOk (execQuery x) = resultOk x := by
  cases x <;> rfl

/-- Claim C1: every nearest-entity query (nearest buses and nearest stops)
returns a sequence sorted non-decreasing by distance with ties broken by
candidate identifier ascending, and when a finite radius is given every
returned distance is at most the radius. -/
theorem claim_C1_nearest_sorted (dist : Coord → Coord → ℚ) (st : GeoState)
    (origin : Coord) (radius limit limitB : Int) (routeFilter : Option Nat)
    (res1 res2 : List (Nat × ℚ))
    (h1 : RouteService.find_nearest_stops dist st origin (some radius)
      (some limit) = .ok res1)
    (h2 : BusService.find_nearest_buses dist st origin routeFilter
      (some limitB) = .ok res2) :
    res1.Sorted proxLe ∧ withinRadius (radius : ℚ) res1 = true ∧
      res2.Sorted proxLe := by
  have h1' : findNearest dist origin (st.stops.map (fun s => (s.id, s.loc)))
      (some (radius : ℚ)) limit = .ok res1 := by
    unfold RouteService.find_nearest_stops RouteRepository.find_nearest_stops
      fn_find_nearest_stops at h1
    simp only [Option.getD_some] at h1
    split_ifs at h1 with hr hl
    all_goals
      first
      | exact Except.noConfusion h1
      | exact (execQuery_ok_iff _ _).mp h1
  have h2' : fn_find_nearest_bus dist st origin routeFilter limitB =
      .ok res2 := by
    unfold BusService.find_nearest_buses BusRepository.find_nearest_bus at h2
    simp only [Option.getD_some] at h2
    exact (execQuery_ok_iff _ _).mp h2
  unfold fn_find_nearest_bus at h2'
  obtain ⟨hs1, hrad⟩ := findNearest_ok_sorted h1'
  obtain ⟨hs2, -⟩ := findNearest_ok_sorted h2'
  refine ⟨hs1, ?_, hs2⟩
  rw [withinRadius, List.all_eq_true]
  intro x hx
  exact decide_eq_true (hrad _ rfl x hx)

/-- Claim C1 witness: a concrete stops query with radius 3 and a concrete
buses query on the fixture snapshot, with their sorted in-radius results. -/
theorem claim_C1_nearest_sorted_witness :
    RouteService.find_nearest_stops sampleDist stFix originFix (some 3)
      (some 10) = .ok [(1, 1), (3, 2)] ∧
    BusService.find_nearest_buses sampleDist stFix originFix none (some 5) =
      .ok [(1, 0), (2, 3)] ∧
    ([(1, (1 : ℚ)), (3, 2)] : List (Nat × ℚ)).Sorted proxLe ∧
    withinRadius ((3 : Int) : ℚ) [(1, 1), (3, 2)] = true ∧
    ([(1, (0 : ℚ)), (2, 3)] : List (Nat × ℚ)).Sorted proxLe := by
  have h := claim_C1_nearest_sorted sampleDist stFix originFix 3 10 5 none
    [(1, 1), (3, 2)] [(1, 0), (2, 3)] rfl rfl
  exact ⟨rfl, rfl, h.1, h.2.1, h.2.2⟩

/-- Claim C2: both nearest-entity queries fail with InvalidArgument when
called with a zero or negative limit. -/
theorem claim_C2_nonpositive_limit (dist : Coord → Coord → ℚ)
    (st : GeoState) (origin : Coord) (radius? : Option Int)
    (routeFilter : Option Nat) (limit : Int) (hl : limit ≤ 0) :
    errKindOf (RouteService.find_nearest_stops dist st origin radius?
      (some limit)) = some .invalidArgument ∧
    errKindOf (BusService.find_nearest_buses dist st origin routeFilter
      (some limit)) = some .invalidArgument := by
  constructor
  · unfold RouteService.find_nearest_stops
    simp only [Option.getD_some]
    by_cases hr : radius?.getD 1000 < 1
    · rw [if_pos hr]; rfl
    · rw [if_neg hr, if_pos (by omega : limit < 1)]; rfl
  · unfold BusService.find_nearest_buses BusRepository.find_nearest_bus
      fn_find_nearest_bus
    simp only [Option.getD_some, errKindOf_execQuery,
      findNearest_nonpos_limit _ _ _ _ _ hl]
    rfl

/-- Claim C2 witness: limit 0 on the fixture makes both queries fail with
InvalidArgument. -/
theorem claim_C2_nonpositive_limit_witness :
    (0 : Int) ≤ 0 ∧
    errKindOf (RouteService.find_nearest_stops sampleDist stFix originFix
      (some 1000) (some 0)) = some .invalidArgument ∧
    errKindOf (BusService.find_nearest_buses sampleDist stFix originFix none
      (some 0)) = some .invalidArgument := by
  have h := claim_C2_nonpositive_limit sampleDist stFix originFix (some 1000)
    none 0 (by decide)
  exact ⟨by decide, h.1, h.2⟩

/-- Claim C3 counterexample: the nearest-stops query accepts a radius of
10001 meters - above the claimed upper bound of 10000 - and answers
normally instead of failing with InvalidArgument. -/
theorem claim_C3_counterexample :
    RouteService.find_nearest_stops sampleDist stFix originFix (some 10001)
      (some 10) = .ok [(1, 1), (3, 2), (2, 5)] := rfl

/-- Claim C3 amended: find_routes_near_location fails with InvalidArgument
for a radius below 1 or above 10000 and accepts any radius in [1, 10000];
find_nearest_stops checks only the lower bound: it fails with
InvalidArgument for a radius below 1 and accepts any radius of at least 1,
including values above 10000. -/
theorem claim_C3_radius_bounds (dist : Coord → Coord → ℚ)
    (proj : Coord → Coord → Coord → ℚ) (st : GeoState) (origin : Coord)
    (radius limit : Int) (hlim : 1 ≤ limit) :
    (radius < 1 ∨ radius > 10000 →
      errKindOf (RouteService.find_routes_near_location proj st origin
        (some radius)) = some .invalidArgument) ∧
    (1 ≤ radius → radius ≤ 10000 →
      resultOk (RouteService.find_routes_near_location proj st origin
        (some radius)) = true) ∧
    (radius < 1 →
      errKindOf (RouteService.find_nearest_stops dist st origin
        (some radius) (some limit)) = some .invalidArgument) ∧
    (1 ≤ radius →
      resultOk (RouteService.find_nearest_stops dist st origin
        (some radius) (some limit)) = true) := by
  refine ⟨?_, ?_, ?_, ?_⟩
  · intro h
    unfold RouteService.find_routes_near_location
    simp only [Option.getD_some]
    rcases h with h | h
    · rw [if_pos h]; rfl
    · rw [if_neg (by omega), if_pos h]; rfl
  · intro hr1 hr2
    unfold RouteService.find_routes_near_location
      RouteRepository.find_routes_near_location fn_find_routes_near_location
    simp only [Option.getD_some]
    rw [if_neg (by omega), if_neg (by omega)]
    rfl
  · intro h
    unfold RouteService.find_nearest_stops
    simp only [Option.getD_some]
    rw [if_pos h]; rfl
  · intro h
    unfold RouteService.find_nearest_stops
      RouteRepository.find_nearest_stops fn_find_nearest_stops
    simp only [Option.getD_some]
    rw [if_neg (by omega), if_neg (by omega), resultOk_execQuery]
    exact findNearest_pos_limit_ok _ _ _ _ _ (by omega)

/-- Claim C3 amended witness: radius 10001 is rejected by the routes-near
query and accepted by the nearest-stops query on the fixture. -/
theorem claim_C3_radius_bounds_witness :
    (1 : Int) ≤ 10 ∧
    errKindOf (RouteService.find_routes_near_location sampleProj stFix
      originFix (some 10001)) = some .invalidArgument ∧
    resultOk (RouteService.find_nearest_stops sampleDist stFix originFix
      (some 10001) (some 10)) = true := by
  have h := claim_C3_radius_bounds sampleDist sampleProj stFix originFix
    10001 10 (by decide)
  exact ⟨by decide, h.1 (Or.inr (by decide)), h.2.2.2 (by decide)⟩

/-- Claim C4: the bus-on-route check fails with NotFound when the bus does
not exist, fails with NotFound when the bus exists but its assigned route
does not, and returns a boolean only when both exist. -/
theorem claim_C4_bus_on_route_notfound (proj : Coord → Coord → Coord → ℚ)
    (st : GeoState) (bid : Nat) (tol? : Option Int) :
    (resultOk (BusService.is_bus_on_route proj st bid tol?) = true →
      busExists st bid = true ∧ assignedRouteExists st bid = true) ∧
    (busExists st bid = false →
      errKindOf (BusService.is_bus_on_route proj st bid tol?) =
        some .notFound) ∧
    (busExists st bid = true → assignedRouteExists st bid = false →
      errKindOf (BusService.is_bus_on_route proj st bid tol?) =
        some .notFound) := by
  unfold BusService.is_bus_on_route BusRepository.existsBus
    BusRepository.is_bus_on_route fn_is_bus_on_route busExists
    assignedRouteExists
  cases hfb : st.findBus bid with
  | none =>
    simp only [Option.isSome_none]
    refine ⟨fun h => ?_, fun _ => ?_, fun h _ => ?_⟩
    · rw [if_neg (by simp)] at h
      simp [resultOk] at h
    · rw [if_neg (by simp)]
      rfl
    · simp at h
  | some b =>
    rw [if_pos (show (some b).isSome = true from rfl)]
    dsimp only
    cases hrid : b.routeId with
    | none =>
      refine ⟨fun h => ?_, fun h => ?_, fun _ _ => rfl⟩
      · simp [resultOk, execQuery] at h
      · simp at h
    | some rid =>
      dsimp only
      cases hfr : st.findRoute rid with
      | none =>
        refine ⟨fun h => ?_, fun h => ?_, fun _ _ => rfl⟩
        · simp [resultOk, execQuery] at h
        · simp at h
      | some r =>
        refine ⟨fun _ => ⟨rfl, rfl⟩, fun h => ?_, fun _ h => ?_⟩
        · simp at h
        · simp at h

/-- Claim C4 witness: on the fixture, bus 2 exists but has no assigned
route, and the check fails with NotFound. -/
theorem claim_C4_bus_on_route_notfound_witness :
    busExists stFix 2 = true ∧ assignedRouteExists stFix 2 = false ∧
    errKindOf (BusService.is_bus_on_route sampleProj stFix 2 none) =
      some .notFound := by
  have h := claim_C4_bus_on_route_notfound sampleProj stFix 2 none
  exact ⟨rfl, rfl, h.2.2 rfl rfl⟩

/-- Claim C5: a reorder whose target assignment gives two stops of the
route the same sequence number fails with ValidationError, and the stored
association rows after the failed call are exactly what they were before:
the reorder is all-or-nothing. -/
theorem claim_C5_reorder_duplicate (st : GeoState) (rid : Nat)
    (mapping : List (Nat × Nat)) (r0 : Route) (s1 s2 o1 o2 q : Nat)
    (hroute : st.findRoute rid = some r0)
    (hm1 : (rid, s1, o1) ∈ st.assocs)
    (hm2 : (rid, s2, o2) ∈ st.assocs)
    (hne : s1 ≠ s2)
    (hl1 : mapping.lookup s1 = some q)
    (hl2 : mapping.lookup s2 = some q) :
    errKindOf (RouteService.reorder_route_stops st rid mapping).1 =
      some .validationError ∧
    (RouteService.reorder_route_stops st rid mapping).2 = st := by
  have h1' : (rid, s1, q) ∈ st.assocs.map (applyReorder rid mapping) :=
    List.mem_map.mpr ⟨(rid, s1, o1), hm1, by simp [applyReorder, hl1]⟩
  have h2' : (rid, s2, q) ∈ st.assocs.map (applyReorder rid mapping) :=
    List.mem_map.mpr ⟨(rid, s2, o2), hm2, by simp [applyReorder, hl2]⟩
  have hf1 : (rid, s1, q) ∈ (st.assocs.map (applyReorder rid mapping)).filter
      (fun a => a.1 == rid) := List.mem_filter.mpr ⟨h1', by simp⟩
  have hf2 : (rid, s2, q) ∈ (st.assocs.map (applyReorder rid mapping)).filter
      (fun a => a.1 == rid) := List.mem_filter.mpr ⟨h2', by simp⟩
  have hnodup : ¬ (reorderedSeqs st rid mapping).Nodup := by
    intro hn
    have heq := List.inj_on_of_nodup_map hn hf1 hf2 rfl
    simp only [Prod.mk.injEq] at heq
    exact hne heq.2.1
  have hdup : dupCheck (reorderedSeqs st rid mapping) = true :=
    dupCheck_of_not_nodup hnodup
  unfold RouteService.reorder_route_stops
  rw [hroute]
  dsimp only
  unfold RouteRepository.reorder_route_stops execQueryM
    fn_reorder_route_stops
  rw [if_pos hdup]
  exact ⟨rfl, rfl⟩

/-- Claim C5 witness: on the fixture, reordering route 1 so that stops 1
and 2 both receive sequence 7 fails with ValidationError and leaves the
snapshot unchanged. -/
theorem claim_C5_reorder_duplicate_witness :
    stFix.findRoute 1 = some ⟨1, [⟨0, 0⟩, ⟨0, 2⟩]⟩ ∧
    ((1, 1, 0) : Nat × Nat × Nat) ∈ stFix.assocs ∧
    ((1, 2, 1) : Nat × Nat × Nat) ∈ stFix.assocs ∧
    errKindOf (RouteService.reorder_route_stops stFix 1
      [(1, 7), (2, 7)]).1 = some .validationError ∧
    (RouteService.reorder_route_stops stFix 1 [(1, 7), (2, 7)]).2 =
      stFix := by
  have h := claim_C5_reorder_duplicate stFix 1 [(1, 7), (2, 7)]
    ⟨1, [⟨0, 0⟩, ⟨0, 2⟩]⟩ 1 2 0 1 7 rfl (by decide) (by decide) (by decide)
    rfl rfl
  exact ⟨rfl, by decide, by decide, h.1, h.2⟩

/-- Claim C6 counterexample: the ValidationError raised inside the reorder
stored function reaches the repository caller with its message rewritten by
the query executor, so the error is not surfaced unchanged. -/
theorem claim_C6_counterexample :
    (fn_reorder_route_stops stFix 1 [(1, 7), (2, 7)]).1 =
      .error ⟨.validationError, "duplicate sequence numbers in route"⟩ ∧
    (RouteRepository.reorder_route_stops stFix 1 [(1, 7), (2, 7)]).1 =
      .error ⟨.validationError,
        "Query execution failed: duplicate sequence numbers in route"⟩ ∧
    (RouteRepository.reorder_route_stops stFix 1 [(1, 7), (2, 7)]).1 ≠
      (fn_reorder_route_stops stFix 1 [(1, 7), (2, 7)]).1 := by
  refine ⟨rfl, rfl, fun h => ?_⟩
  rw [show (RouteRepository.reorder_route_stops stFix 1
      [(1, 7), (2, 7)]).1 = .error ⟨.validationError,
        "Query execution failed: duplicate sequence numbers in route"⟩
    from rfl] at h
  rw [show (fn_reorder_route_stops stFix 1 [(1, 7), (2, 7)]).1 =
      .error ⟨.validationError, "duplicate sequence numbers in route"⟩
    from rfl] at h
  simp only [Except.error.injEq, Err.mk.injEq] at h
  exact absurd h.2 (by decide)

/-- Claim C6 amended: an error arising inside a core operation is always
surfaced to the caller as an error of the same kind - no component swallows
it or downgrades it to a normal return value - but the repository layer
re-raises it with its message wrapped in a query-execution context rather
than unchanged. -/
theorem claim_C6_errors_wrapped_not_swallowed
    (proj : Coord → Coord → Coord → ℚ) (st : GeoState) (rid1 rid2 : Nat)
    (p : Coord) (tol : Int) (mapping : List (Nat × Nat)) (e1 e2 : Err)
    (hp : fn_is_point_on_route proj st rid1 p tol = .error e1)
    (hr : (fn_reorder_route_stops st rid2 mapping).1 = .error e2) :
    RouteRepository.is_point_on_route proj st rid1 p tol =
      .error (wrapErr e1) ∧
    (wrapErr e1).kind = e1.kind ∧
    (RouteRepository.reorder_route_stops st rid2 mapping).1 =
      .error (wrapErr e2) ∧
    (wrapErr e2).kind = e2.kind ∧
    (RouteRepository.reorder_route_stops st rid2 mapping).2 =
      (fn_reorder_route_stops st rid2 mapping).2 := by
  refine ⟨?_, rfl, ?_, rfl, rfl⟩
  · unfold RouteRepository.is_point_on_route
    exact execQuery_error _ _ hp
  · unfold RouteRepository.reorder_route_stops execQueryM
    dsimp only
    rw [hr]
    rfl

/-- Claim C6 amended witness: a degenerate route makes the point-on-route
stored function raise InvalidRoute and a duplicate mapping makes the
reorder stored function raise ValidationError; both reach the repository
caller wrapped, with their kinds preserved. -/
theorem claim_C6_errors_wrapped_witness :
    RouteRepository.is_point_on_route sampleProj stFix 9 coordB 100 =
      .error (wrapErr ⟨.invalidRoute, "path must have at least 2 points"⟩) ∧
    (RouteRepository.reorder_route_stops stFix 1 [(1, 7), (2, 7)]).1 =
      .error (wrapErr
        ⟨.validationError, "duplicate sequence numbers in route"⟩) ∧
    (RouteRepository.reorder_route_stops stFix 1 [(1, 7), (2, 7)]).2 =
      (fn_reorder_route_stops stFix 1 [(1, 7), (2, 7)]).2 := by
  have h := claim_C6_errors_wrapped_not_swallowed sampleProj stFix 9 1
    coordB 100 [(1, 7), (2, 7)]
    ⟨.invalidRoute, "path must have at least 2 points"⟩
    ⟨.validationError, "duplicate sequence numbers in route"⟩ rfl rfl
  exact ⟨h.1, h.2.2.1, h.2.2.2.2⟩

/-- Claim C10 witness: on the fixture, bus 2 exists but is Inactive, so the
update fails and the state is unchanged. -/
theorem claim_C10_update_location_gate_witness :
    busExistsActive stFix 2 = false ∧
    resultOk (BusService.update_location stFix 2 coordA).1 = false ∧
    (BusService.update_location stFix 2 coordA).2 = stFix :=
  ⟨rfl, ((claim_C10_update_location_gate stFix 2 coordA).1 rfl).1,
    ((claim_C10_update_location_gate stFix 2 coordA).1 rfl).2⟩

end ManBus
